import Mathlib

/-!
# bleuart.c : BLE UART driver of the nRF52832 firmware

A shallow embedding of `src/fw_nrf52/src/hw/driver/bleuart/bleuart.c`.

* The file-scope variables of the driver form the record `State`.
* Machine integers are natural numbers; a conversion that can lose bits in the
  C code is written with an explicit `%`.
* The radio stack (SoftDevice and nRF5 SDK modules) is the environment.  What it
  answers to a command is an input of the model: a return code per
  initialisation command, a return code carried by each event for the one
  command its handler issues, and a script of send results, clock readings and
  asynchronous events for `bleUartWrite`.
* `APP_ERROR_CHECK` on a failing code enters the fatal error handler, which
  does not return; a handler that ends there yields `none`.
-/

namespace BleUart

/-! ## Constants of the SDK headers -/

/-- Modelled from the spec: `nrf_error.h` is not among the sources; the code a
collaborator command returns when it succeeded (SDK value). -/
def NRF_SUCCESS : Nat := 0

/-- Modelled from the spec: the retriable send result "not found" (§4.3 step c),
SDK value of `nrf_error.h`. -/
def NRF_ERROR_NOT_FOUND : Nat := 5

/-- Modelled from the spec: the retriable send result "invalid state"
(§4.3 step c), SDK value of `nrf_error.h`. -/
def NRF_ERROR_INVALID_STATE : Nat := 8

/-- Modelled from the spec: the retriable send result "transient resource busy"
(§4.3 step c), SDK value of `nrf_error.h`. -/
def NRF_ERROR_RESOURCES : Nat := 19

/-- Modelled from the spec: the "none" connection handle of §3
(`ble_types.h` is not among the sources; SDK value). -/
def BLE_CONN_HANDLE_INVALID : Nat := 0xFFFF

/-- Modelled from the spec: the protocol-minimum ATT MTU from which the default
of `negotiated_max_payload` is derived (`ble_gatt.h`, SDK value). -/
def BLE_GATT_ATT_MTU_DEFAULT : Nat := 23

/-- Modelled from the spec: opcode part of the `protocol_header_overhead` of
§4.2 (`ble_nus.h`, SDK value). -/
def OPCODE_LENGTH : Nat := 1

/-- Modelled from the spec: handle part of the `protocol_header_overhead` of
§4.2 (`ble_nus.h`, SDK value). -/
def HANDLE_LENGTH : Nat := 2

/-! ## qbuffer -/

/-- Modelled from the spec: `qbuffer.c` is not among the sources.  §4.1
RingBuffer: fixed capacity `len`, buffered bytes `buf` oldest first. -/
structure qbuffer_t where
  len : Nat
  buf : List Nat
deriving DecidableEq

/-- Modelled from the spec: §4.1 `create(capacity)`: storage of `capacity`
bytes, count 0. -/
def qbufferCreate (length : Nat) : qbuffer_t :=
  { len := length, buf := [] }

/-- Modelled from the spec: §4.1 `write(bytes)`: appends all bytes iff
`count + len(bytes) ≤ capacity`, otherwise rejects the entire write. -/
def qbufferWrite (q : qbuffer_t) (p_data : List Nat) : Bool × qbuffer_t :=
  if q.buf.length + p_data.length ≤ q.len then
    (true, { q with buf := q.buf ++ p_data })
  else
    (false, q)

/-- Modelled from the spec: §4.1 `read(max_n)`: removes and returns up to
`max_n` bytes, oldest first. -/
def qbufferRead (q : qbuffer_t) (length : Nat) : List Nat × qbuffer_t :=
  (q.buf.take length, { q with buf := q.buf.drop length })

/-- Modelled from the spec: §4.1 `available()`: the current count. -/
def qbufferAvailable (q : qbuffer_t) : Nat :=
  q.buf.length

/-- Modelled from the spec: §4.1 `flush()`: count back to 0. -/
def qbufferFlush (q : qbuffer_t) : qbuffer_t :=
  { q with buf := [] }

/-! ## Driver state (file-scope variables, lines 54-74) -/

/-- The file-scope variables of bleuart.c. -/
structure State where
  m_conn_handle : Nat
  m_ble_nus_max_data_len : Nat
  is_init : Bool
  is_connect : Bool
  err_code_init : Nat
  q_rx : qbuffer_t
  q_tx : qbuffer_t
  is_q_rx_over : Bool
  is_ready_to_send : Bool
deriving DecidableEq

/-- The static initialisers of lines 54-74. -/
def initState : State :=
  { m_conn_handle := BLE_CONN_HANDLE_INVALID
    m_ble_nus_max_data_len := BLE_GATT_ATT_MTU_DEFAULT - 3
    is_init := false
    is_connect := false
    err_code_init := NRF_SUCCESS
    q_rx := { len := 0, buf := [] }
    q_tx := { len := 0, buf := [] }
    is_q_rx_over := false
    is_ready_to_send := false }

/-! ## Fatal error macros -/

/-- Modelled from the spec: `APP_ERROR_CHECK` of `app_error.h` (§7 d): a code
other than success goes to the fatal handler, which halts or resets the system
and does not return (`none`). -/
def APP_ERROR_CHECK (err_code : Nat) : Option Unit :=
  if err_code ≠ NRF_SUCCESS then none else some ()

/-! ## Events -/

/-- Event ids that `handler_ble_evt` switches on; `OTHER` is the default
case. -/
inductive ble_evt_id
  | BLE_GAP_EVT_CONNECTED
  | BLE_GAP_EVT_DISCONNECTED
  | BLE_GAP_EVT_PHY_UPDATE_REQUEST
  | BLE_GAP_EVT_SEC_PARAMS_REQUEST
  | BLE_GATTS_EVT_SYS_ATTR_MISSING
  | BLE_GATTC_EVT_TIMEOUT
  | BLE_GATTS_EVT_TIMEOUT
  | OTHER
deriving DecidableEq

/-- The part of `ble_evt_t` the handler reads, and `rc`: the code the stack
returns to the one command the handler issues for this event. -/
structure ble_evt_t where
  evt_id : ble_evt_id
  conn_handle : Nat
  rc : Nat
deriving DecidableEq

/-- Event ids of the GATT module. -/
inductive nrf_ble_gatt_evt_id
  | NRF_BLE_GATT_EVT_ATT_MTU_UPDATED
  | NRF_BLE_GATT_EVT_DATA_LENGTH_UPDATED
deriving DecidableEq

/-- The part of `nrf_ble_gatt_evt_t` the handler reads. -/
structure nrf_ble_gatt_evt_t where
  evt_id : nrf_ble_gatt_evt_id
  conn_handle : Nat
  att_mtu_effective : Nat
deriving DecidableEq

/-- Event types of the Nordic UART service. -/
inductive ble_nus_evt_type
  | BLE_NUS_EVT_RX_DATA
  | BLE_NUS_EVT_TX_RDY
  | BLE_NUS_EVT_COMM_STARTED
  | BLE_NUS_EVT_COMM_STOPPED
deriving DecidableEq

/-- The part of `ble_nus_evt_t` the handler reads; `rx_data` is the byte
sequence `params.rx_data.p_data[0 .. length)`. -/
structure ble_nus_evt_t where
  type : ble_nus_evt_type
  rx_data : List Nat
deriving DecidableEq

/-- Advertising events. -/
inductive ble_adv_evt_t
  | BLE_ADV_EVT_FAST
  | BLE_ADV_EVT_IDLE
  | OTHER
deriving DecidableEq

/-- Connection-parameter events. -/
inductive ble_conn_params_evt_type
  | BLE_CONN_PARAMS_EVT_FAILED
  | BLE_CONN_PARAMS_EVT_SUCCEEDED
deriving DecidableEq

/-- The part of `ble_conn_params_evt_t` the handler reads, and `rc`: the code
returned to the disconnect command. -/
structure ble_conn_params_evt_t where
  evt_type : ble_conn_params_evt_type
  rc : Nat
deriving DecidableEq

/-! ## Event handlers (lines 352-491) -/

/-- Lines 352-419.  The commands issued in the request and timeout cases touch no
variable of the driver; only their return code matters here. -/
def handler_ble_evt (s : State) (p_ble_evt : ble_evt_t) : Option State :=
  let err_code := 0
  match p_ble_evt.evt_id with
  | .BLE_GAP_EVT_CONNECTED =>
    (APP_ERROR_CHECK err_code).bind fun _ =>
    let s := { s with m_conn_handle := p_ble_evt.conn_handle }
    let err_code := p_ble_evt.rc
    (APP_ERROR_CHECK err_code).bind fun _ =>
    some { s with is_connect := true }
  | .BLE_GAP_EVT_DISCONNECTED =>
    let s := { s with m_conn_handle := BLE_CONN_HANDLE_INVALID }
    some { s with is_connect := false }
  | .BLE_GAP_EVT_PHY_UPDATE_REQUEST =>
    let err_code := p_ble_evt.rc
    (APP_ERROR_CHECK err_code).bind fun _ => some s
  | .BLE_GAP_EVT_SEC_PARAMS_REQUEST =>
    let err_code := p_ble_evt.rc
    (APP_ERROR_CHECK err_code).bind fun _ => some s
  | .BLE_GATTS_EVT_SYS_ATTR_MISSING =>
    let err_code := p_ble_evt.rc
    (APP_ERROR_CHECK err_code).bind fun _ => some s
  | .BLE_GATTC_EVT_TIMEOUT =>
    let err_code := p_ble_evt.rc
    (APP_ERROR_CHECK err_code).bind fun _ => some s
  | .BLE_GATTS_EVT_TIMEOUT =>
    let err_code := p_ble_evt.rc
    (APP_ERROR_CHECK err_code).bind fun _ => some s
  | .OTHER => some s

/-- Lines 421-431.  The subtraction is done in `int` and stored in a
`uint16_t`.  `p_gatt` is read by the log statement only. -/
def handler_gatt_evt (s : State) (p_evt : nrf_ble_gatt_evt_t) : State :=
  if s.m_conn_handle = p_evt.conn_handle ∧
      p_evt.evt_id = .NRF_BLE_GATT_EVT_ATT_MTU_UPDATED then
    { s with m_ble_nus_max_data_len :=
        (((p_evt.att_mtu_effective : Int) - OPCODE_LENGTH - HANDLE_LENGTH) % 65536).toNat }
  else
    s

/-- Lines 433-436: always the fatal handler. -/
def handler_nrf_qwr_error (_s : State) (_nrf_error : Nat) : Option State :=
  none

/-- Lines 438-456. -/
def handler_nus_data (s : State) (p_evt : ble_nus_evt_t) : State :=
  let s :=
    if p_evt.type = .BLE_NUS_EVT_RX_DATA then
      let r := qbufferWrite s.q_rx p_evt.rx_data
      let s := { s with q_rx := r.2 }
      if r.1 ≠ true then { s with is_q_rx_over := true } else s
    else s
  if p_evt.type = .BLE_NUS_EVT_TX_RDY then
    { s with is_ready_to_send := true }
  else s

/-- Lines 458-475.  `err_code` stays 0 in the FAST case; the result of the
restart command in the IDLE case is dropped. -/
def handler_on_adv_evt (s : State) (ble_adv_evt : ble_adv_evt_t) : Option State :=
  let err_code := 0
  match ble_adv_evt with
  | .BLE_ADV_EVT_FAST => (APP_ERROR_CHECK err_code).bind fun _ => some s
  | .BLE_ADV_EVT_IDLE => some s
  | .OTHER => some s

/-- Lines 477-486. -/
def handler_on_conn_params_evt (s : State) (p_evt : ble_conn_params_evt_t) : Option State :=
  if p_evt.evt_type = .BLE_CONN_PARAMS_EVT_FAILED then
    let err_code := p_evt.rc
    (APP_ERROR_CHECK err_code).bind fun _ => some s
  else some s

/-- Lines 488-491: always the fatal handler. -/
def handler_conn_params_error (_s : State) (_nrf_error : Nat) : Option State :=
  none

/-- An asynchronous notification of the radio stack: which handler runs, on
what argument. -/
inductive Event
  | ble (e : ble_evt_t)
  | gatt (e : nrf_ble_gatt_evt_t)
  | qwr_error (nrf_error : Nat)
  | nus (e : ble_nus_evt_t)
  | adv (e : ble_adv_evt_t)
  | conn_params (e : ble_conn_params_evt_t)
  | conn_params_error (nrf_error : Nat)
deriving DecidableEq

/-- Run the handler an event is registered for. -/
def dispatch (s : State) : Event → Option State
  | .ble e => handler_ble_evt s e
  | .gatt e => some (handler_gatt_evt s e)
  | .qwr_error n => handler_nrf_qwr_error s n
  | .nus e => some (handler_nus_data s e)
  | .adv e => handler_on_adv_evt s e
  | .conn_params e => handler_on_conn_params_evt s e
  | .conn_params_error n => handler_conn_params_error s n

/-- Run the handlers of a burst of events, in order of arrival. -/
def deliver : List Event → State → Option State
  | [], s => some s
  | e :: es, s => (dispatch s e).bind (deliver es)

/-! ## Initialisation (lines 94-119, 202-350) -/

/-- Commands of the radio stack issued during initialisation.  All but
`ble_advertising_conn_cfg_tag_set` (a `void` function) return a code. -/
inductive Cmd
  | nrf_sdh_enable_request
  | nrf_sdh_ble_default_cfg_set
  | nrf_sdh_ble_enable
  | sd_ble_gap_device_name_set
  | sd_ble_gap_ppcp_set
  | nrf_ble_gatt_init
  | nrf_ble_gatt_att_mtu_periph_set
  | nrf_ble_qwr_init
  | ble_nus_init
  | ble_advertising_init
  | ble_advertising_conn_cfg_tag_set
  | ble_conn_params_init
  | ble_advertising_start
deriving DecidableEq

/-- Whether the command returns a `ret_code_t`. -/
def Cmd.hasReturnCode : Cmd → Bool
  | .ble_advertising_conn_cfg_tag_set => false
  | _ => true

/-- The driver state together with the log of the commands issued to the radio
stack so far, oldest first. -/
structure Sys where
  st : State
  issued : List Cmd
deriving DecidableEq

/-- The statement `err_code_init = c(...)`: the command is issued and the code
the stack returns (`rc c`) is stored. -/
def Sys.assign (w : Sys) (rc : Cmd → Nat) (c : Cmd) : Sys :=
  { st := { w.st with err_code_init := rc c }, issued := w.issued ++ [c] }

/-- A command whose result, if any, is not stored. -/
def Sys.issue (w : Sys) (c : Cmd) : Sys :=
  { w with issued := w.issued ++ [c] }

/-- Lines 202-221. -/
def ble_stack_init (rc : Cmd → Nat) (w : Sys) : Bool × Sys :=
  let w := w.assign rc .nrf_sdh_enable_request
  if w.st.err_code_init ≠ NRF_SUCCESS then (false, w) else
  let w := w.assign rc .nrf_sdh_ble_default_cfg_set
  if w.st.err_code_init ≠ NRF_SUCCESS then (false, w) else
  let w := w.assign rc .nrf_sdh_ble_enable
  if w.st.err_code_init ≠ NRF_SUCCESS then (false, w) else
  (true, w)

/-- Lines 223-250. -/
def gap_params_init (rc : Cmd → Nat) (w : Sys) : Bool × Sys :=
  if w.st.err_code_init ≠ NRF_SUCCESS then (false, w) else
  let w := w.assign rc .sd_ble_gap_device_name_set
  if w.st.err_code_init ≠ NRF_SUCCESS then (false, w) else
  let w := w.assign rc .sd_ble_gap_ppcp_set
  if w.st.err_code_init ≠ NRF_SUCCESS then (false, w) else
  (true, w)

/-- Lines 252-263. -/
def gatt_init (rc : Cmd → Nat) (w : Sys) : Bool × Sys :=
  if w.st.err_code_init ≠ NRF_SUCCESS then (false, w) else
  let w := w.assign rc .nrf_ble_gatt_init
  if w.st.err_code_init ≠ NRF_SUCCESS then (false, w) else
  let w := w.assign rc .nrf_ble_gatt_att_mtu_periph_set
  if w.st.err_code_init ≠ NRF_SUCCESS then (false, w) else
  (true, w)

/-- Lines 265-287. -/
def services_init (rc : Cmd → Nat) (w : Sys) : Bool × Sys :=
  if w.st.err_code_init ≠ NRF_SUCCESS then (false, w) else
  let w := w.assign rc .nrf_ble_qwr_init
  if w.st.err_code_init ≠ NRF_SUCCESS then (false, w) else
  let w := w.assign rc .ble_nus_init
  if w.st.err_code_init ≠ NRF_SUCCESS then (false, w) else
  (true, w)

/-- Lines 289-316. -/
def advertising_init (rc : Cmd → Nat) (w : Sys) : Bool × Sys :=
  if w.st.err_code_init ≠ NRF_SUCCESS then (false, w) else
  let w := w.assign rc .ble_advertising_init
  if w.st.err_code_init ≠ NRF_SUCCESS then (false, w) else
  let w := w.issue .ble_advertising_conn_cfg_tag_set
  (true, w)

/-- Lines 318-340. -/
def conn_params_init (rc : Cmd → Nat) (w : Sys) : Bool × Sys :=
  if w.st.err_code_init ≠ NRF_SUCCESS then (false, w) else
  let w := w.assign rc .ble_conn_params_init
  if w.st.err_code_init ≠ NRF_SUCCESS then (false, w) else
  (true, w)

/-- Lines 342-350. -/
def advertising_start (rc : Cmd → Nat) (w : Sys) : Bool × Sys :=
  if w.st.err_code_init ≠ NRF_SUCCESS then (false, w) else
  let w := w.assign rc .ble_advertising_start
  if w.st.err_code_init ≠ NRF_SUCCESS then (false, w) else
  (true, w)

/-- The two `qbufferCreate` calls of lines 100-101.  `BLEUART_MAX_BUF_LEN`
comes from `bleuart.h`, which is not among the sources: a parameter. -/
def createBuffers (BLEUART_MAX_BUF_LEN : Nat) (w : Sys) : Sys :=
  let w := { w with st := { w.st with q_rx := qbufferCreate BLEUART_MAX_BUF_LEN } }
  { w with st := { w.st with q_tx := qbufferCreate BLEUART_MAX_BUF_LEN } }

/-- Lines 94-114.  `ret &= f()` calls `f` whatever `ret` holds. -/
def bleUartInit (BLEUART_MAX_BUF_LEN : Nat) (rc : Cmd → Nat) (w : Sys) : Bool × Sys :=
  let ret := true
  let w := createBuffers BLEUART_MAX_BUF_LEN w
  let r := ble_stack_init rc w
  let ret := ret && r.1
  let r := gap_params_init rc r.2
  let ret := ret && r.1
  let r := gatt_init rc r.2
  let ret := ret && r.1
  let r := services_init rc r.2
  let ret := ret && r.1
  let r := advertising_init rc r.2
  let ret := ret && r.1
  let r := conn_params_init rc r.2
  let ret := ret && r.1
  let r := advertising_start rc r.2
  let ret := ret && r.1
  let w := { r.2 with st := { r.2.st with is_init := ret } }
  (ret, w)

/-- Lines 116-119. -/
def bleUartIsInit (s : State) : Bool :=
  s.is_init

/-- Lines 121-124. -/
def bleUartIsConnect (s : State) : Bool :=
  s.is_connect

/-- Lines 126-129. -/
def bleUartAvailable (s : State) : Nat :=
  qbufferAvailable s.q_rx

/-- Lines 131-137. -/
def bleUartFlush (s : State) : Bool × State :=
  let s := { s with q_rx := qbufferFlush s.q_rx }
  let s := { s with q_tx := qbufferFlush s.q_tx }
  (true, s)

/-- Lines 139-145: `ret` keeps 0 when the buffer has no byte. -/
def bleUartRead (s : State) : Nat × State :=
  let ret := 0
  let r := qbufferRead s.q_rx 1
  let ret := r.1.headD ret
  (ret, { s with q_rx := r.2 })

/-! ### Specification devices for the initialisation claims -/

/-- The seven steps in the order `bleUartInit` calls them. -/
def initSteps : List ((Cmd → Nat) → Sys → Bool × Sys) :=
  [ble_stack_init, gap_params_init, gatt_init, services_init,
   advertising_init, conn_params_init, advertising_start]

/-- Call the steps one after the other; keeps what each returned and the
system it left. -/
def runSteps (rc : Cmd → Nat) : List ((Cmd → Nat) → Sys → Bool × Sys) → Sys → List (Bool × Sys)
  | [], _ => []
  | f :: fs, w => f rc w :: runSteps rc fs (f rc w).2

/-- The twelve commands that return a code, in the order of the source text. -/
def fixedOrder : List Cmd :=
  [.nrf_sdh_enable_request, .nrf_sdh_ble_default_cfg_set, .nrf_sdh_ble_enable,
   .sd_ble_gap_device_name_set, .sd_ble_gap_ppcp_set,
   .nrf_ble_gatt_init, .nrf_ble_gatt_att_mtu_periph_set,
   .nrf_ble_qwr_init, .ble_nus_init,
   .ble_advertising_init, .ble_conn_params_init, .ble_advertising_start]

/-- The initial segment of a command list up to and including the first
command whose code is not `NRF_SUCCESS` (the whole list when there is none). -/
def upToFirstFailure (rc : Cmd → Nat) : List Cmd → List Cmd
  | [] => []
  | c :: cs => if rc c ≠ NRF_SUCCESS then [c] else c :: upToFirstFailure rc cs

/-! ## bleUartWrite (lines 147-200) -/

/-- One call of `ble_nus_data_send`: `p_tx_buf` is the index into `p_data` the
pointer argument designates, `tx_len` the length passed, `conn_handle` the
handle passed.  `max_data_len` records `m_ble_nus_max_data_len` as it was when
`tx_len` was computed. -/
structure SendReq where
  p_tx_buf : Nat
  tx_len : Nat
  conn_handle : Nat
  max_data_len : Nat
deriving DecidableEq

/-- One evaluation of the wait loop condition: the events whose handlers ran
since the previous clock reading, and what `millis()` returns. -/
structure Poll where
  evts : List Event
  now : Nat
deriving DecidableEq

/-- What the environment does during one iteration of the outer loop: events
before the chunk is sized (`head`), the code `ble_nus_data_send` returns (`rc`),
events while the send request runs (`during`), the `millis()` reading stored in
`pre_time` (`t0`), the polls of the wait loop, and events between the end of the
wait loop and the last test of the readiness flag (`late`). -/
structure Round where
  head : List Event
  rc : Nat
  during : List Event
  t0 : Nat
  polls : List Poll
  late : List Event
deriving DecidableEq

/-- Driver state plus what the call has done so far: the send requests, oldest
first, and the number of times the wait loop condition was evaluated. -/
structure World where
  st : State
  sends : List SendReq
  polls : Nat
deriving DecidableEq

/-- Subtraction of `uint32_t` values. -/
def u32sub (a b : Nat) : Nat :=
  (((a : Int) - (b : Int)) % 4294967296).toNat

/-- Lines 180-191.  `none`: the script ends before the loop does, or a handler
ended in the fatal handler. -/
def waitLoop (pre_time : Nat) : List Poll → World → Option World
  | [], _ => none
  | p :: ps, w =>
    match deliver p.evts w.st with
    | none => none
    | some st =>
      let w := { w with st := st, polls := w.polls + 1 }
      if u32sub p.now pre_time < 100 then
        if w.st.is_ready_to_send = true then some w
        else if w.st.is_connect ≠ true then some w
        else waitLoop pre_time ps w
      else some w

/-- Lines 161-197, one round of the script per iteration.  `none`: the script
ends before the loop does, or a handler ended in the fatal handler. -/
def writeLoop (length : Nat) : List Round → Nat → World → Option (Nat × World)
  | [], sent_len, w => if sent_len < length then none else some (sent_len, w)
  | r :: rest, sent_len, w =>
    if sent_len < length then
      match deliver r.head w.st with
      | none => none
      | some st =>
        let p_tx_buf := sent_len
        let tx_len := length % 65536
        let tx_len :=
          if tx_len > st.m_ble_nus_max_data_len then st.m_ble_nus_max_data_len else tx_len
        let st := { st with is_ready_to_send := false }
        let req : SendReq :=
          { p_tx_buf := p_tx_buf, tx_len := tx_len, conn_handle := st.m_conn_handle,
            max_data_len := st.m_ble_nus_max_data_len }
        match deliver r.during st with
        | none => none
        | some st =>
          let w := { w with st := st, sends := w.sends ++ [req] }
          let err_code := r.rc
          if err_code ≠ NRF_ERROR_INVALID_STATE ∧ err_code ≠ NRF_ERROR_RESOURCES ∧
              err_code ≠ NRF_ERROR_NOT_FOUND then
            some (sent_len, w)
          else
            let pre_time := r.t0
            match waitLoop pre_time r.polls w with
            | none => none
            | some w =>
              match deliver r.late w.st with
              | none => none
              | some st =>
                let w := { w with st := st }
                if st.is_ready_to_send ≠ true then some (sent_len, w)
                else writeLoop length rest sent_len w
    else some (sent_len, w)

/-- Lines 147-200.  The bytes of `p_data` are never read by the driver; only
positions in it are passed on. -/
def bleUartWrite (s : State) (_p_data : List Nat) (length : Nat) (script : List Round) :
    Option (Nat × World) :=
  if s.is_connect ≠ true then some (0, { st := s, sends := [], polls := 0 })
  else
    let sent_len := 0
    writeLoop length script sent_len { st := s, sends := [], polls := 0 }

/-! ## Specification devices for the event and write claims -/

/-- The handler of the event sets the readiness flag: a `BLE_NUS_EVT_TX_RDY`
notification of the UART service. -/
def Event.signalsReady : Event → Bool
  | .nus e => decide (e.type = .BLE_NUS_EVT_TX_RDY)
  | _ => false

/-- The handler of the event comes back to its caller: the command it issues,
if any, succeeded, and it is not one of the two error callbacks. -/
def Event.returns : Event → Bool
  | .ble e =>
    match e.evt_id with
    | .BLE_GAP_EVT_DISCONNECTED => true
    | .OTHER => true
    | _ => decide (e.rc = NRF_SUCCESS)
  | .gatt _ => true
  | .qwr_error _ => false
  | .nus _ => true
  | .adv _ => true
  | .conn_params e =>
    decide (e.evt_type = .BLE_CONN_PARAMS_EVT_FAILED → e.rc = NRF_SUCCESS)
  | .conn_params_error _ => false

/-- A link-connected event carries a real handle. -/
def Event.realHandle : Event → Bool
  | .ble e =>
    decide (e.evt_id = .BLE_GAP_EVT_CONNECTED → e.conn_handle ≠ BLE_CONN_HANDLE_INVALID)
  | _ => true

/-- All events of the polls of a wait loop, in order. -/
def pollEvents : List Poll → List Event
  | [] => []
  | p :: ps => p.evts ++ pollEvents ps

/-- All events of a round, in order. -/
def Round.events (r : Round) : List Event :=
  r.head ++ r.during ++ pollEvents r.polls ++ r.late

/-- All events of a script, in order. -/
def scriptEvents : List Round → List Event
  | [] => []
  | r :: rs => r.events ++ scriptEvents rs

/-- The connection-state invariant of §3. -/
def connInv (s : State) : Prop :=
  s.m_conn_handle = BLE_CONN_HANDLE_INVALID ↔ s.is_connect = false

/-- What can happen to the driver between two moments of rest: an event of the
radio stack, or a call of the public interface. -/
inductive Call
  | event (e : Event)
  | bleUartInit (BLEUART_MAX_BUF_LEN : Nat) (rc : Cmd → Nat)
  | bleUartIsInit
  | bleUartIsConnect
  | bleUartAvailable
  | bleUartFlush
  | bleUartRead
  | bleUartWrite (p_data : List Nat) (length : Nat) (script : List Round)

/-- The driver state a call leaves; `none` when it does not come back. -/
def Call.exec (s : State) : Call → Option State
  | .event e => dispatch s e
  | .bleUartInit B rc => some (BleUart.bleUartInit B rc ⟨s, []⟩).2.st
  | .bleUartIsInit => some s
  | .bleUartIsConnect => some s
  | .bleUartAvailable => some s
  | .bleUartFlush => some (BleUart.bleUartFlush s).2
  | .bleUartRead => some (BleUart.bleUartRead s).2
  | .bleUartWrite p_data length script =>
    (BleUart.bleUartWrite s p_data length script).map fun r => r.2.st

/-- Every link-connected event of the call carries a real handle. -/
def Call.realHandles : Call → Bool
  | .event e => e.realHandle
  | .bleUartWrite _ _ script => (scriptEvents script).all Event.realHandle
  | _ => true

/-- Run a sequence of calls. -/
def run : List Call → State → Option State
  | [], s => some s
  | c :: cs, s => (c.exec s).bind (run cs)

/-! ## Concrete inputs used by the closed statements below -/

/-- A link that is up with handle 1 and a negotiated maximum payload of 64. -/
def linkUp64 : State :=
  { initState with m_conn_handle := 1, is_connect := true, m_ble_nus_max_data_len := 64 }

/-- The events that bring the initial state to `linkUp64`. -/
def linkUp64Events : List Event :=
  [.ble ⟨.BLE_GAP_EVT_CONNECTED, 1, NRF_SUCCESS⟩,
   .gatt ⟨.NRF_BLE_GATT_EVT_ATT_MTU_UPDATED, 1, 67⟩]

/-- The state after a link with an effective MTU of 64 went down again. -/
def afterMtu64Link : State :=
  { initState with m_ble_nus_max_data_len := 61 }

/-- The events that bring the initial state to `afterMtu64Link`. -/
def afterMtu64LinkEvents : List Event :=
  [.ble ⟨.BLE_GAP_EVT_CONNECTED, 1, NRF_SUCCESS⟩,
   .gatt ⟨.NRF_BLE_GATT_EVT_ATT_MTU_UPDATED, 1, 64⟩,
   .ble ⟨.BLE_GAP_EVT_DISCONNECTED, 1, NRF_SUCCESS⟩]

/-- The send-slot-ready notification. -/
def txReady : Event :=
  .nus ⟨.BLE_NUS_EVT_TX_RDY, []⟩

/-- A round in which the stack accepts the chunk (`NRF_SUCCESS`) and signals
readiness at once. -/
def roundAccepted : Round :=
  { head := [], rc := NRF_SUCCESS, during := [txReady], t0 := 0,
    polls := [⟨[], 1⟩], late := [] }

/-- A round in which the send request is answered `NRF_ERROR_RESOURCES` and
readiness is signalled before the first poll, 1 ms later. -/
def roundBusyReady : Round :=
  { head := [], rc := NRF_ERROR_RESOURCES, during := [], t0 := 0,
    polls := [⟨[txReady], 1⟩], late := [] }

/-- A round in which the send request is answered `NRF_ERROR_RESOURCES`,
readiness is never signalled, and the 32-bit clock wraps during the wait: the
polls are 5, 56, 99, 100 and 101 ms after `pre_time`. -/
def roundSilent : Round :=
  { head := [], rc := NRF_ERROR_RESOURCES, during := [], t0 := 4294967290,
    polls := [⟨[], 4294967295⟩, ⟨[], 50⟩, ⟨[], 93⟩, ⟨[], 94⟩, ⟨[], 95⟩], late := [] }

/-- A round in which the send request is answered `NRF_ERROR_RESOURCES`,
readiness is never signalled, the clock goes 50 ms and then 100 ms past
`pre_time`, and a security-parameters request arrives before the first poll
whose reply command is answered with code 3. -/
def roundPairingReplyFails : Round :=
  { head := [], rc := NRF_ERROR_RESOURCES, during := [], t0 := 0,
    polls := [⟨[.ble ⟨.BLE_GAP_EVT_SEC_PARAMS_REQUEST, 1, 3⟩], 50⟩, ⟨[], 100⟩],
    late := [] }

/-- Return codes with which `nrf_ble_qwr_init` fails with code 4 and every
other command succeeds. -/
def rcQwrFails : Cmd → Nat :=
  fun c => if c = .nrf_ble_qwr_init then 4 else NRF_SUCCESS

/-- A session: initialisation, a link coming up with handle 5, a write that
times out, an MTU update, a received payload. -/
def sessionCalls : List Call :=
  [.bleUartInit 256 (fun _ => NRF_SUCCESS),
   .event (.ble ⟨.BLE_GAP_EVT_CONNECTED, 5, NRF_SUCCESS⟩),
   .bleUartWrite [1, 2, 3] 3 [roundSilent],
   .event (.gatt ⟨.NRF_BLE_GATT_EVT_ATT_MTU_UPDATED, 5, 64⟩),
   .event (.nus ⟨.BLE_NUS_EVT_RX_DATA, [7, 8]⟩),
   .bleUartRead]

/-- The state `sessionCalls` ends in. -/
def sessionEnd : State :=
  { m_conn_handle := 5
    m_ble_nus_max_data_len := 61
    is_init := true
    is_connect := true
    err_code_init := NRF_SUCCESS
    q_rx := { len := 256, buf := [8] }
    q_tx := { len := 256, buf := [] }
    is_q_rx_over := false
    is_ready_to_send := false }

/-! # Theorems -/

/-! ## Initialisation -/

/-- The facts about one run of `bleUartInit` from a state with an empty command
log, by cases on the first command that fails. -/
theorem init_run_facts (B : Nat) (rc : Cmd → Nat) (s : State) :
    (((bleUartInit B rc ⟨s, []⟩).1 = true ↔
        ∀ x ∈ runSteps rc initSteps (createBuffers B ⟨s, []⟩), x.1 = true) ∧
    ((∀ x ∈ runSteps rc initSteps (createBuffers B ⟨s, []⟩), x.1 = true) ↔
        ∀ c ∈ fixedOrder, rc c = NRF_SUCCESS) ∧
    bleUartIsInit (bleUartInit B rc ⟨s, []⟩).2.st = (bleUartInit B rc ⟨s, []⟩).1) ∧
    (bleUartInit B rc ⟨s, []⟩).2.issued.filter Cmd.hasReturnCode
        = upToFirstFailure rc fixedOrder ∧
    (runSteps rc initSteps (createBuffers B ⟨s, []⟩)).Pairwise
        (fun a b => a.1 = false → b.1 = false ∧ b.2 = a.2) ∧
    (∀ c, fixedOrder.find? (fun c => decide (rc c ≠ NRF_SUCCESS)) = some c →
        (bleUartInit B rc ⟨s, []⟩).2.st.err_code_init = rc c) ∧
    (∃ x, (runSteps rc initSteps (createBuffers B ⟨s, []⟩)).getLast? = some x ∧
        (bleUartInit B rc ⟨s, []⟩).2.issued = x.2.issued ∧
        (bleUartInit B rc ⟨s, []⟩).2.st.err_code_init = x.2.st.err_code_init) := by
  by_cases h1 : rc .nrf_sdh_enable_request = 0
  swap
  · simp [bleUartInit, runSteps, initSteps, createBuffers, ble_stack_init, gap_params_init,
      gatt_init, services_init, advertising_init, conn_params_init, advertising_start,
      Sys.assign, Sys.issue, NRF_SUCCESS, fixedOrder, bleUartIsInit, upToFirstFailure,
      Cmd.hasReturnCode,
      h1]
  by_cases h2 : rc .nrf_sdh_ble_default_cfg_set = 0
  swap
  · simp [bleUartInit, runSteps, initSteps, createBuffers, ble_stack_init, gap_params_init,
      gatt_init, services_init, advertising_init, conn_params_init, advertising_start,
      Sys.assign, Sys.issue, NRF_SUCCESS, fixedOrder, bleUartIsInit, upToFirstFailure,
      Cmd.hasReturnCode,
      h1, h2]
  by_cases h3 : rc .nrf_sdh_ble_enable = 0
  swap
  · simp [bleUartInit, runSteps, initSteps, createBuffers, ble_stack_init, gap_params_init,
      gatt_init, services_init, advertising_init, conn_params_init, advertising_start,
      Sys.assign, Sys.issue, NRF_SUCCESS, fixedOrder, bleUartIsInit, upToFirstFailure,
      Cmd.hasReturnCode,
      h1, h2, h3]
  by_cases h4 : rc .sd_ble_gap_device_name_set = 0
  swap
  · simp [bleUartInit, runSteps, initSteps, createBuffers, ble_stack_init, gap_params_init,
      gatt_init, services_init, advertising_init, conn_params_init, advertising_start,
      Sys.assign, Sys.issue, NRF_SUCCESS, fixedOrder, bleUartIsInit, upToFirstFailure,
      Cmd.hasReturnCode,
      h1, h2, h3, h4]
  by_cases h5 : rc .sd_ble_gap_ppcp_set = 0
  swap
  · simp [bleUartInit, runSteps, initSteps, createBuffers, ble_stack_init, gap_params_init,
      gatt_init, services_init, advertising_init, conn_params_init, advertising_start,
      Sys.assign, Sys.issue, NRF_SUCCESS, fixedOrder, bleUartIsInit, upToFirstFailure,
      Cmd.hasReturnCode,
      h1, h2, h3, h4, h5]
  by_cases h6 : rc .nrf_ble_gatt_init = 0
  swap
  · simp [bleUartInit, runSteps, initSteps, createBuffers, ble_stack_init, gap_params_init,
      gatt_init, services_init, advertising_init, conn_params_init, advertising_start,
      Sys.assign, Sys.issue, NRF_SUCCESS, fixedOrder, bleUartIsInit, upToFirstFailure,
      Cmd.hasReturnCode,
      h1, h2, h3, h4, h5, h6]
  by_cases h7 : rc .nrf_ble_gatt_att_mtu_periph_set = 0
  swap
  · simp [bleUartInit, runSteps, initSteps, createBuffers, ble_stack_init, gap_params_init,
      gatt_init, services_init, advertising_init, conn_params_init, advertising_start,
      Sys.assign, Sys.issue, NRF_SUCCESS, fixedOrder, bleUartIsInit, upToFirstFailure,
      Cmd.hasReturnCode,
      h1, h2, h3, h4, h5, h6, h7]
  by_cases h8 : rc .nrf_ble_qwr_init = 0
  swap
  · simp [bleUartInit, runSteps, initSteps, createBuffers, ble_stack_init, gap_params_init,
      gatt_init, services_init, advertising_init, conn_params_init, advertising_start,
      Sys.assign, Sys.issue, NRF_SUCCESS, fixedOrder, bleUartIsInit, upToFirstFailure,
      Cmd.hasReturnCode,
      h1, h2, h3, h4, h5, h6, h7, h8]
  by_cases h9 : rc .ble_nus_init = 0
  swap
  · simp [bleUartInit, runSteps, initSteps, createBuffers, ble_stack_init, gap_params_init,
      gatt_init, services_init, advertising_init, conn_params_init, advertising_start,
      Sys.assign, Sys.issue, NRF_SUCCESS, fixedOrder, bleUartIsInit, upToFirstFailure,
      Cmd.hasReturnCode,
      h1, h2, h3, h4, h5, h6, h7, h8, h9]
  by_cases h10 : rc .ble_advertising_init = 0
  swap
  · simp [bleUartInit, runSteps, initSteps, createBuffers, ble_stack_init, gap_params_init,
      gatt_init, services_init, advertising_init, conn_params_init, advertising_start,
      Sys.assign, Sys.issue, NRF_SUCCESS, fixedOrder, bleUartIsInit, upToFirstFailure,
      Cmd.hasReturnCode,
      h1, h2, h3, h4, h5, h6, h7, h8, h9, h10]
  by_cases h11 : rc .ble_conn_params_init = 0
  swap
  · simp [bleUartInit, runSteps, initSteps, createBuffers, ble_stack_init, gap_params_init,
      gatt_init, services_init, advertising_init, conn_params_init, advertising_start,
      Sys.assign, Sys.issue, NRF_SUCCESS, fixedOrder, bleUartIsInit, upToFirstFailure,
      Cmd.hasReturnCode,
      h1, h2, h3, h4, h5, h6, h7, h8, h9, h10, h11]
  by_cases h12 : rc .ble_advertising_start = 0
  swap
  · simp [bleUartInit, runSteps, initSteps, createBuffers, ble_stack_init, gap_params_init,
      gatt_init, services_init, advertising_init, conn_params_init, advertising_start,
      Sys.assign, Sys.issue, NRF_SUCCESS, fixedOrder, bleUartIsInit, upToFirstFailure,
      Cmd.hasReturnCode,
      h1, h2, h3, h4, h5, h6, h7, h8, h9, h10, h11, h12]
  simp [bleUartInit, runSteps, initSteps, createBuffers, ble_stack_init, gap_params_init,
      gatt_init, services_init, advertising_init, conn_params_init, advertising_start,
      Sys.assign, Sys.issue, NRF_SUCCESS, fixedOrder, bleUartIsInit, upToFirstFailure,
      Cmd.hasReturnCode,
      h1, h2, h3, h4, h5, h6, h7, h8, h9, h10, h11, h12]

/-- C4: `bleUartInit` returns true iff each of the seven steps returned true,
which holds iff each of the twelve commands returned `NRF_SUCCESS`;
`bleUartIsInit` then reports what `bleUartInit` returned.  The prior state,
`err_code_init` included, is arbitrary. -/
theorem C4_init_composite_result (B : Nat) (rc : Cmd → Nat) (s : State) :
    ((bleUartInit B rc ⟨s, []⟩).1 = true ↔
        ∀ x ∈ runSteps rc initSteps (createBuffers B ⟨s, []⟩), x.1 = true) ∧
    ((∀ x ∈ runSteps rc initSteps (createBuffers B ⟨s, []⟩), x.1 = true) ↔
        ∀ c ∈ fixedOrder, rc c = NRF_SUCCESS) ∧
    bleUartIsInit (bleUartInit B rc ⟨s, []⟩).2.st = (bleUartInit B rc ⟨s, []⟩).1 :=
  (init_run_facts B rc s).1

/-- C4 at return codes that are all `NRF_SUCCESS`, from a state whose
`err_code_init` holds a stale failure code: the call returns true and
`bleUartIsInit` is true afterwards. -/
theorem C4_init_composite_result_witness :
    (bleUartInit 256 (fun _ => NRF_SUCCESS)
        ⟨{ initState with err_code_init := 4 }, []⟩).1 = true ∧
    bleUartIsInit (bleUartInit 256 (fun _ => NRF_SUCCESS)
        ⟨{ initState with err_code_init := 4 }, []⟩).2.st = true := by
  have h := C4_init_composite_result 256 (fun _ => NRF_SUCCESS)
    { initState with err_code_init := 4 }
  have h1 : (bleUartInit 256 (fun _ => NRF_SUCCESS)
      ⟨{ initState with err_code_init := 4 }, []⟩).1 = true :=
    h.1.2 (h.2.1.2 (fun _ _ => rfl))
  exact ⟨h1, h.2.2.trans h1⟩

/-- C5: the commands with a return code that `bleUartInit` issues are the fixed
order cut after the first command that does not return `NRF_SUCCESS`; a step
that follows a step that returned false returns false and leaves the state and
the command log as they were; `err_code_init` ends as the code of the first
failing command.  The last conjunct ties the step list to the run. -/
theorem C5_init_fail_fast (B : Nat) (rc : Cmd → Nat) (s : State) :
    (bleUartInit B rc ⟨s, []⟩).2.issued.filter Cmd.hasReturnCode
        = upToFirstFailure rc fixedOrder ∧
    (runSteps rc initSteps (createBuffers B ⟨s, []⟩)).Pairwise
        (fun a b => a.1 = false → b.1 = false ∧ b.2 = a.2) ∧
    (∀ c, fixedOrder.find? (fun c => decide (rc c ≠ NRF_SUCCESS)) = some c →
        (bleUartInit B rc ⟨s, []⟩).2.st.err_code_init = rc c) ∧
    (∃ x, (runSteps rc initSteps (createBuffers B ⟨s, []⟩)).getLast? = some x ∧
        (bleUartInit B rc ⟨s, []⟩).2.issued = x.2.issued ∧
        (bleUartInit B rc ⟨s, []⟩).2.st.err_code_init = x.2.st.err_code_init) :=
  (init_run_facts B rc s).2

/-- C5 when `nrf_ble_qwr_init` fails with code 4: eight commands are issued,
and `err_code_init` is 4 at the end. -/
theorem C5_init_fail_fast_witness :
    (bleUartInit 256 rcQwrFails ⟨initState, []⟩).2.issued.filter Cmd.hasReturnCode
      = [.nrf_sdh_enable_request, .nrf_sdh_ble_default_cfg_set, .nrf_sdh_ble_enable,
         .sd_ble_gap_device_name_set, .sd_ble_gap_ppcp_set, .nrf_ble_gatt_init,
         .nrf_ble_gatt_att_mtu_periph_set, .nrf_ble_qwr_init] ∧
    (bleUartInit 256 rcQwrFails ⟨initState, []⟩).2.st.err_code_init = 4 := by
  have h := C5_init_fail_fast 256 rcQwrFails initState
  refine ⟨h.1.trans (by decide), ?_⟩
  exact h.2.2.1 .nrf_ble_qwr_init (by decide)

/-! ## Event effects -/

/-- C6, amended: a link-connected event whose handle-assignment command
succeeds sets `is_connect`, stores the handle of the event in
`m_conn_handle`, and leaves `m_ble_nus_max_data_len` at the value it had. -/
theorem C6_connected_effect (s : State) (p_ble_evt : ble_evt_t)
    (hid : p_ble_evt.evt_id = .BLE_GAP_EVT_CONNECTED) (hrc : p_ble_evt.rc = NRF_SUCCESS) :
    ∃ s', handler_ble_evt s p_ble_evt = some s' ∧
      s'.is_connect = true ∧
      s'.m_conn_handle = p_ble_evt.conn_handle ∧
      s'.m_ble_nus_max_data_len = s.m_ble_nus_max_data_len := by
  simp [handler_ble_evt, hid, hrc, APP_ERROR_CHECK, NRF_SUCCESS]

/-- C6, amended, at the initial state and handle 7. -/
theorem C6_connected_effect_witness :
    ∃ s', handler_ble_evt initState ⟨.BLE_GAP_EVT_CONNECTED, 7, NRF_SUCCESS⟩ = some s' ∧
      s'.is_connect = true ∧ s'.m_conn_handle = 7 ∧
      s'.m_ble_nus_max_data_len = initState.m_ble_nus_max_data_len :=
  C6_connected_effect initState ⟨.BLE_GAP_EVT_CONNECTED, 7, NRF_SUCCESS⟩ rfl rfl

/-- C6 as stated fails: after a link with an effective MTU of 64 went down, the
next link-connected event leaves the negotiated maximum payload at 61, which is
not the default `BLE_GATT_ATT_MTU_DEFAULT - 3`. -/
theorem C6_connected_keeps_stale_payload :
    deliver afterMtu64LinkEvents initState = some afterMtu64Link ∧
    ∃ s', handler_ble_evt afterMtu64Link ⟨.BLE_GAP_EVT_CONNECTED, 2, NRF_SUCCESS⟩ = some s' ∧
      s'.is_connect = true ∧ s'.m_conn_handle = 2 ∧
      s'.m_ble_nus_max_data_len = 61 ∧
      s'.m_ble_nus_max_data_len ≠ BLE_GATT_ATT_MTU_DEFAULT - 3 := by
  refine ⟨by decide, _, rfl, ?_⟩
  decide

/-- C8: an ATT-MTU-updated event for the active handle sets the negotiated
maximum payload to the effective MTU minus 3, taken modulo 2^16 (plainly the
MTU minus 3 for an MTU from 3 to 65535); any other GATT event leaves it as it
was; `is_connect`, `m_conn_handle`, the readiness flag and the overflow flag
are unchanged in both cases. -/
theorem C8_gatt_evt_effect (s : State) (p_evt : nrf_ble_gatt_evt_t) :
    ((s.m_conn_handle = p_evt.conn_handle ∧
        p_evt.evt_id = .NRF_BLE_GATT_EVT_ATT_MTU_UPDATED) →
      (((handler_gatt_evt s p_evt).m_ble_nus_max_data_len : Int)
          = ((p_evt.att_mtu_effective : Int) - 3) % 65536) ∧
      (3 ≤ p_evt.att_mtu_effective → p_evt.att_mtu_effective < 65536 →
        (handler_gatt_evt s p_evt).m_ble_nus_max_data_len = p_evt.att_mtu_effective - 3)) ∧
    (¬ (s.m_conn_handle = p_evt.conn_handle ∧
        p_evt.evt_id = .NRF_BLE_GATT_EVT_ATT_MTU_UPDATED) →
      (handler_gatt_evt s p_evt).m_ble_nus_max_data_len = s.m_ble_nus_max_data_len) ∧
    (handler_gatt_evt s p_evt).is_connect = s.is_connect ∧
    (handler_gatt_evt s p_evt).m_conn_handle = s.m_conn_handle ∧
    (handler_gatt_evt s p_evt).is_ready_to_send = s.is_ready_to_send ∧
    (handler_gatt_evt s p_evt).is_q_rx_over = s.is_q_rx_over := by
  refine ⟨fun h => ?_, fun h => ?_, ?_, ?_, ?_, ?_⟩
  · simp only [handler_gatt_evt, if_pos h, OPCODE_LENGTH, HANDLE_LENGTH]
    constructor
    · omega
    · intro h3 h4
      omega
  · simp [handler_gatt_evt, if_neg h]
  all_goals
    unfold handler_gatt_evt
    split <;> rfl

/-- C8 on the link `linkUp64` (handle 1): an MTU update to 64 for handle 1 gives
a payload of 61, the same event for handle 2 leaves the payload at 64. -/
theorem C8_gatt_evt_effect_witness :
    (handler_gatt_evt linkUp64
        ⟨.NRF_BLE_GATT_EVT_ATT_MTU_UPDATED, 1, 64⟩).m_ble_nus_max_data_len = 64 - 3 ∧
    (handler_gatt_evt linkUp64
        ⟨.NRF_BLE_GATT_EVT_ATT_MTU_UPDATED, 2, 64⟩).m_ble_nus_max_data_len
      = linkUp64.m_ble_nus_max_data_len :=
  ⟨((C8_gatt_evt_effect linkUp64 ⟨.NRF_BLE_GATT_EVT_ATT_MTU_UPDATED, 1, 64⟩).1
      ⟨rfl, rfl⟩).2 (by decide) (by decide),
   (C8_gatt_evt_effect linkUp64 ⟨.NRF_BLE_GATT_EVT_ATT_MTU_UPDATED, 2, 64⟩).2.1
      (by decide)⟩

/-! ## bleUartWrite -/

/-- C1: when `is_connect` is false at the call, `bleUartWrite` returns 0, issues
no send request, and leaves the whole driver state (readiness flag and
connection state included) as it was, whatever the data, the length and the
environment. -/
theorem C1_write_gated (s : State) (p_data : List Nat) (length : Nat) (script : List Round)
    (h : s.is_connect = false) :
    bleUartWrite s p_data length script = some (0, { st := s, sends := [], polls := 0 }) := by
  simp [bleUartWrite, h]

/-- C1 at the initial state, three bytes and a script that would accept them. -/
theorem C1_write_gated_witness :
    bleUartWrite initState [1, 2, 3] 3 [roundAccepted]
      = some (0, { st := initState, sends := [], polls := 0 }) :=
  C1_write_gated initState [1, 2, 3] 3 [roundAccepted] rfl

/-- With `NRF_ERROR_RESOURCES` and a readiness signal in every round the outer
loop is still running when the script ends, however long the script. -/
theorem writeLoop_busy_ready_runs_on (length : Nat) (hlen : 0 < length) (n : Nat) (w : World) :
    writeLoop length (List.replicate n roundBusyReady) 0 w = none := by
  induction n generalizing w with
  | zero => simp [writeLoop, hlen]
  | succ k ih =>
    simp only [List.replicate_succ, writeLoop, hlen, if_true]
    simp [roundBusyReady, deliver, dispatch, handler_nus_data, txReady, waitLoop, u32sub,
      NRF_ERROR_RESOURCES, NRF_ERROR_INVALID_STATE, NRF_ERROR_NOT_FOUND]
    exact ih _

/-- C2 fails on the code.  On the link `linkUp64` (maximum payload 64), writing
200 bytes while the stack accepts every chunk and signals readiness at once
issues one send request (offset 0, length 64) instead of four and returns 0;
and when the stack answers `NRF_ERROR_RESOURCES` and then signals readiness,
the call never returns, however many rounds the environment plays. -/
theorem C2_chunking_not_performed :
    deliver linkUp64Events initState = some linkUp64 ∧
    (bleUartWrite linkUp64 (List.replicate 200 0) 200
        [roundAccepted, roundAccepted, roundAccepted, roundAccepted]).map
      (fun r => (r.1, r.2.sends.map fun q => (q.p_tx_buf, q.tx_len)))
      = some (0, [(0, 64)]) ∧
    ∀ n, bleUartWrite linkUp64 (List.replicate 200 0) 200
        (List.replicate n roundBusyReady) = none := by
  refine ⟨by decide, by decide, fun n => ?_⟩
  simp only [bleUartWrite, linkUp64, ne_eq, not_true_eq_false, if_false]
  exact writeLoop_busy_ready_runs_on 200 (by decide) n _

/-- C3 fails on the code.  On the link `linkUp64`, a first chunk of 64 bytes
whose send request is followed by a readiness signal that the wait loop
observes, and a second request that the stack accepts: the call returns 0, not
64, and both requests start at offset 0.  An accepted write of 5 bytes returns 0,
not 5. -/
theorem C3_return_count_stays_zero :
    (bleUartWrite linkUp64 (List.replicate 200 0) 200 [roundBusyReady, roundAccepted]).map
      (fun r => (r.1, r.2.sends.map fun q => (q.p_tx_buf, q.tx_len), r.2.polls))
      = some (0, [(0, 64), (0, 64)], 1) ∧
    (bleUartWrite linkUp64 [1, 2, 3, 4, 5] 5 [roundAccepted]).map
      (fun r => (r.1, r.2.sends.map fun q => (q.p_tx_buf, q.tx_len)))
      = some (0, [(0, 5)]) := by
  constructor <;> decide

/-! ## Lemmas on events and on the loops of bleUartWrite -/

theorem dispatch_quiet (s : State) (e : Event) (hr : e.returns = true)
    (hq : e.signalsReady = false) :
    ∃ s', dispatch s e = some s' ∧ s'.is_ready_to_send = s.is_ready_to_send := by
  cases e with
  | ble b =>
    obtain ⟨id, h, rc⟩ := b
    cases id <;>
      simp_all [Event.returns, dispatch, handler_ble_evt, APP_ERROR_CHECK, NRF_SUCCESS]
  | gatt g =>
    refine ⟨_, rfl, ?_⟩
    unfold handler_gatt_evt
    split <;> rfl
  | qwr_error n => simp [Event.returns] at hr
  | nus n =>
    refine ⟨_, rfl, ?_⟩
    simp only [Event.signalsReady, decide_eq_false_iff_not] at hq
    simp only [handler_nus_data, if_neg hq]
    split
    · split <;> rfl
    · rfl
  | adv a =>
    cases a <;> simp [dispatch, handler_on_adv_evt, APP_ERROR_CHECK, NRF_SUCCESS]
  | conn_params c =>
    simp only [Event.returns, decide_eq_true_eq] at hr
    simp only [dispatch, handler_on_conn_params_evt]
    split
    · rename_i h
      simp [APP_ERROR_CHECK, hr h]
    · exact ⟨_, rfl, rfl⟩
  | conn_params_error n => simp [Event.returns] at hr

theorem deliver_quiet (es : List Event) (s : State)
    (h : ∀ e ∈ es, e.returns = true ∧ e.signalsReady = false) :
    ∃ s', deliver es s = some s' ∧ s'.is_ready_to_send = s.is_ready_to_send := by
  induction es generalizing s with
  | nil => exact ⟨s, rfl, rfl⟩
  | cons e es ih =>
    obtain ⟨s1, h1, hr1⟩ := dispatch_quiet s e (h e (by simp)).1 (h e (by simp)).2
    obtain ⟨s2, h2, hr2⟩ := ih s1 (fun x hx => h x (by simp [hx]))
    exact ⟨s2, by simp [deliver, h1, h2], by rw [hr2, hr1]⟩

/-- The wait loop gives up at the latest at the first poll that is 100 ms past
`pre_time`, when nothing sets the readiness flag. -/
theorem waitLoop_timeout (pre_time : Nat) (polls : List Poll) (w : World) (j : Nat) (p : Poll)
    (hready : w.st.is_ready_to_send = false)
    (hq : ∀ e ∈ pollEvents polls, e.returns = true ∧ e.signalsReady = false)
    (hj : polls[j]? = some p) (hp : 100 ≤ u32sub p.now pre_time) :
    ∃ w', waitLoop pre_time polls w = some w' ∧ w'.polls ≤ w.polls + j + 1 ∧
      1 ≤ w'.polls ∧ w'.sends = w.sends ∧ w'.st.is_ready_to_send = false := by
  induction polls generalizing w j with
  | nil => simp at hj
  | cons q qs ih =>
    obtain ⟨st, hst, hrdy⟩ := deliver_quiet q.evts w.st
      (fun e he => hq e (by simp [pollEvents, he]))
    rw [hready] at hrdy
    simp only [waitLoop, hst]
    by_cases hlt : u32sub q.now pre_time < 100
    · simp only [if_pos hlt, hrdy]
      by_cases hc : st.is_connect = true
      · cases j with
        | zero =>
          simp at hj
          subst hj
          omega
        | succ k =>
          simp only [List.getElem?_cons_succ] at hj
          obtain ⟨w', hw', h1, h2, h3, h4⟩ :=
            ih { w with st := st, polls := w.polls + 1 } k hrdy
              (fun e he => hq e (by simp [pollEvents, he])) hj
          refine ⟨w', ?_, ?_, h2, h3, h4⟩
          · simpa [hc] using hw'
          · simp only at h1
            omega
      · refine ⟨{ w with st := st, polls := w.polls + 1 }, ?_, ?_, ?_, rfl, hrdy⟩
        · simp [hc]
        · simp
        · simp
    · refine ⟨{ w with st := st, polls := w.polls + 1 }, ?_, ?_, ?_, rfl, hrdy⟩
      · simp [hlt]
      · simp only
        omega
      · simp


/-- The wait loop issues no send request. -/
theorem waitLoop_sends (pre_time : Nat) (polls : List Poll) (w w' : World)
    (h : waitLoop pre_time polls w = some w') : w'.sends = w.sends := by
  induction polls generalizing w with
  | nil => simp [waitLoop] at h
  | cons q qs ih =>
    simp only [waitLoop] at h
    split at h
    · simp at h
    · split at h
      · split at h
        · simp only [Option.some.injEq] at h
          subst h
          rfl
        · split at h
          · simp only [Option.some.injEq] at h
            subst h
            rfl
          · have h' := ih _ h
            simpa using h'
      · simp only [Option.some.injEq] at h
        subst h
        rfl

/-- The outer loop returns the counter it was entered with, and every request
it adds starts at that counter and has the capped 16-bit length. -/
theorem writeLoop_returns (length : Nat) (rounds : List Round) (sent_len : Nat)
    (w0 : World) (n : Nat) (w : World)
    (h : writeLoop length rounds sent_len w0 = some (n, w)) :
    n = sent_len ∧ ∀ q ∈ w.sends, q ∈ w0.sends ∨
      (q.p_tx_buf = sent_len ∧ q.tx_len = min (length % 65536) q.max_data_len) := by
  induction rounds generalizing w0 with
  | nil =>
    simp only [writeLoop] at h
    split at h
    · simp at h
    · simp only [Option.some.injEq, Prod.mk.injEq] at h
      obtain ⟨h1, h2⟩ := h
      subst h1 h2
      exact ⟨rfl, fun q hq => Or.inl hq⟩
  | cons r rest ih =>
    simp only [writeLoop] at h
    split at h
    · split at h
      · simp at h
      · rename_i st1 hst1
        split at h
        · simp at h
        · rename_i st2 hst2
          have hnew : ∀ q ∈ w0.sends ++
              [({ p_tx_buf := sent_len,
                  tx_len := if length % 65536 > st1.m_ble_nus_max_data_len
                    then st1.m_ble_nus_max_data_len else length % 65536,
                  conn_handle := st1.m_conn_handle,
                  max_data_len := st1.m_ble_nus_max_data_len } : SendReq)],
              q ∈ w0.sends ∨
                (q.p_tx_buf = sent_len ∧ q.tx_len = min (length % 65536) q.max_data_len) := by
            intro q hq
            rcases List.mem_append.mp hq with hq | hq
            · exact Or.inl hq
            · right
              simp only [List.mem_singleton] at hq
              subst hq
              refine ⟨rfl, ?_⟩
              simp only
              split <;> omega
          split at h
          · simp only [Option.some.injEq, Prod.mk.injEq] at h
            obtain ⟨h1, h2⟩ := h
            subst h1 h2
            exact ⟨rfl, hnew⟩
          · split at h
            · simp at h
            · rename_i w1 hw1
              have hs1 := waitLoop_sends _ _ _ _ hw1
              split at h
              · simp at h
              · rename_i st3 hst3
                split at h
                · simp only [Option.some.injEq, Prod.mk.injEq] at h
                  obtain ⟨h1, h2⟩ := h
                  subst h1 h2
                  refine ⟨rfl, ?_⟩
                  simp only [hs1]
                  exact hnew
                · obtain ⟨hn, hall⟩ := ih _ h
                  refine ⟨hn, fun q hq => ?_⟩
                  rcases hall q hq with hq' | hq'
                  · simp only [hs1] at hq'
                    exact hnew q hq'
                  · exact Or.inr hq'
    · simp only [Option.some.injEq, Prod.mk.injEq] at h
      obtain ⟨h1, h2⟩ := h
      subst h1 h2
      exact ⟨rfl, fun q hq => Or.inl hq⟩

/-- C10: whenever `bleUartWrite` returns, it returns 0, and every send request
of the call starts at offset 0 of the caller's data with length
`min (length mod 2^16) m_ble_nus_max_data_len`: the counter `sent_len` is set to
0 and never advanced. -/
theorem C10_write_always_returns_zero (s : State) (p_data : List Nat) (length : Nat)
    (script : List Round) (n : Nat) (w : World)
    (h : bleUartWrite s p_data length script = some (n, w)) :
    n = 0 ∧ ∀ q ∈ w.sends,
      q.p_tx_buf = 0 ∧ q.tx_len = min (length % 65536) q.max_data_len := by
  unfold bleUartWrite at h
  split at h
  · simp only [Option.some.injEq, Prod.mk.injEq] at h
    obtain ⟨h1, h2⟩ := h
    subst h1 h2
    exact ⟨rfl, fun q hq => by simp at hq⟩
  · obtain ⟨hn, hall⟩ := writeLoop_returns _ _ _ _ _ _ h
    refine ⟨hn, fun q hq => ?_⟩
    rcases hall q hq with hq' | hq'
    · simp at hq'
    · exact hq'

/-- C9, amended: on a connected link, with at least one byte to write, a send
request answered by a retriable code, interleaved events whose handlers come
back to the wait loop (none ends in the fatal error handler) and never set the
readiness flag, and a poll at which the clock is at least 100 ms past
`pre_time`, the call returns (with 0); exactly one send request was issued and
the wait loop evaluated its condition at most up to that poll. -/
theorem C9_write_timeout (s : State) (p_data : List Nat) (length : Nat) (r : Round)
    (rest : List Round) (j : Nat) (p : Poll)
    (hconn : s.is_connect = true) (hlen : 1 ≤ length)
    (hrc : r.rc = NRF_ERROR_INVALID_STATE ∨ r.rc = NRF_ERROR_RESOURCES ∨
      r.rc = NRF_ERROR_NOT_FOUND)
    (hq : ∀ e ∈ r.events, e.returns = true ∧ e.signalsReady = false)
    (hj : r.polls[j]? = some p) (hp : 100 ≤ u32sub p.now r.t0) :
    ∃ w, bleUartWrite s p_data length (r :: rest) = some (0, w) ∧
      w.sends.length = 1 ∧ 1 ≤ w.polls ∧ w.polls ≤ j + 1 ∧
      w.st.is_ready_to_send = false := by
  have hlen' : 0 < length := hlen
  obtain ⟨st1, hst1, -⟩ := deliver_quiet r.head s
    (fun e he => hq e (by simp [Round.events, he]))
  obtain ⟨st2, hst2, hr2⟩ := deliver_quiet r.during { st1 with is_ready_to_send := false }
    (fun e he => hq e (by simp [Round.events, he]))
  obtain ⟨w1, hw1, hp1, hp2, hs1, hr1⟩ := waitLoop_timeout r.t0 r.polls
    { st := st2, sends := [] ++
        [({ p_tx_buf := 0,
            tx_len := if length % 65536 > st1.m_ble_nus_max_data_len
              then st1.m_ble_nus_max_data_len else length % 65536,
            conn_handle := st1.m_conn_handle,
            max_data_len := st1.m_ble_nus_max_data_len } : SendReq)],
      polls := 0 } j p hr2
    (fun e he => hq e (by simp [Round.events, he])) hj hp
  obtain ⟨st3, hst3, hr3⟩ := deliver_quiet r.late w1.st
    (fun e he => hq e (by simp [Round.events, he]))
  rw [hr1] at hr3
  have hnot : ¬ (r.rc ≠ NRF_ERROR_INVALID_STATE ∧ r.rc ≠ NRF_ERROR_RESOURCES ∧
      r.rc ≠ NRF_ERROR_NOT_FOUND) := by
    rintro ⟨h1, h2, h3⟩
    rcases hrc with h | h | h
    · exact h1 h
    · exact h2 h
    · exact h3 h
  refine ⟨{ w1 with st := st3 }, ?_, ?_, hp2, ?_, hr3⟩
  · simp only [bleUartWrite, hconn, ne_eq, not_true_eq_false, if_false, writeLoop, hlen',
      if_true, hst1, hst2]
    rw [if_neg hnot]
    simp only [hw1, hst3, hr3]
    simp
  · simp [hs1]
  · simpa using hp1

/-! ## Lemmas on the connection-state invariant -/

theorem dispatch_connInv (s s' : State) (e : Event) (hinv : connInv s)
    (hreal : e.realHandle = true) (h : dispatch s e = some s') : connInv s' := by
  cases e with
  | ble b =>
    obtain ⟨id, hd, rc⟩ := b
    cases id <;> by_cases hrc : rc = 0 <;>
      simp [dispatch, handler_ble_evt, APP_ERROR_CHECK, NRF_SUCCESS, hrc] at h <;>
      (subst h; simp_all [connInv, Event.realHandle])
  | gatt g =>
    simp only [dispatch, Option.some.injEq] at h
    subst h
    unfold handler_gatt_evt
    split <;> exact hinv
  | qwr_error n => simp [dispatch, handler_nrf_qwr_error] at h
  | nus n =>
    simp only [dispatch, Option.some.injEq] at h
    subst h
    simp only [handler_nus_data]
    split <;> split <;> try split
    all_goals exact hinv
  | adv a =>
    cases a <;>
      simp_all [dispatch, handler_on_adv_evt, APP_ERROR_CHECK, NRF_SUCCESS]
  | conn_params c =>
    simp only [dispatch, handler_on_conn_params_evt] at h
    split at h
    · simp only [APP_ERROR_CHECK] at h
      split at h <;> simp_all
    · simp_all
  | conn_params_error n => simp [dispatch, handler_conn_params_error] at h

theorem deliver_connInv (es : List Event) (s s' : State) (hinv : connInv s)
    (hreal : ∀ e ∈ es, e.realHandle = true) (h : deliver es s = some s') : connInv s' := by
  induction es generalizing s with
  | nil =>
    simp only [deliver, Option.some.injEq] at h
    subst h
    exact hinv
  | cons e es ih =>
    simp only [deliver] at h
    cases hd : dispatch s e with
    | none => simp [hd] at h
    | some s1 =>
      simp only [hd, Option.some_bind] at h
      exact ih s1 (dispatch_connInv s s1 e hinv (hreal e (by simp)) hd)
        (fun x hx => hreal x (by simp [hx])) h

theorem waitLoop_connInv (pre_time : Nat) (polls : List Poll) (w w' : World)
    (hinv : connInv w.st) (hreal : ∀ e ∈ pollEvents polls, e.realHandle = true)
    (h : waitLoop pre_time polls w = some w') : connInv w'.st := by
  induction polls generalizing w with
  | nil => simp [waitLoop] at h
  | cons q qs ih =>
    simp only [waitLoop] at h
    split at h
    · simp at h
    · rename_i st hst
      have hst' : connInv st :=
        deliver_connInv q.evts w.st st hinv (fun e he => hreal e (by simp [pollEvents, he])) hst
      split at h
      · split at h
        · simp only [Option.some.injEq] at h
          subst h
          exact hst'
        · split at h
          · simp only [Option.some.injEq] at h
            subst h
            exact hst'
          · exact ih _ hst' (fun e he => hreal e (by simp [pollEvents, he])) h
      · simp only [Option.some.injEq] at h
        subst h
        exact hst'

theorem writeLoop_connInv (length : Nat) (rounds : List Round) (sent_len : Nat)
    (w0 : World) (n : Nat) (w : World) (hinv : connInv w0.st)
    (hreal : ∀ e ∈ scriptEvents rounds, e.realHandle = true)
    (h : writeLoop length rounds sent_len w0 = some (n, w)) : connInv w.st := by
  induction rounds generalizing w0 with
  | nil =>
    simp only [writeLoop] at h
    split at h
    · simp at h
    · simp only [Option.some.injEq, Prod.mk.injEq] at h
      obtain ⟨-, h2⟩ := h
      subst h2
      exact hinv
  | cons r rest ih =>
    simp only [writeLoop] at h
    split at h
    · split at h
      · simp at h
      · rename_i st1 hst1
        have h1 : connInv st1 := deliver_connInv r.head w0.st st1 hinv
          (fun e he => hreal e (by simp [scriptEvents, Round.events, he])) hst1
        have h1' : connInv { st1 with is_ready_to_send := false } := h1
        split at h
        · simp at h
        · rename_i st2 hst2
          have h2 : connInv st2 := deliver_connInv r.during _ st2 h1'
            (fun e he => hreal e (by simp [scriptEvents, Round.events, he])) hst2
          split at h
          · simp only [Option.some.injEq, Prod.mk.injEq] at h
            obtain ⟨-, hw⟩ := h
            subst hw
            exact h2
          · split at h
            · simp at h
            · rename_i w1 hw1
              have h3 : connInv w1.st := waitLoop_connInv _ _ _ _ h2
                (fun e he => hreal e (by simp [scriptEvents, Round.events, he])) hw1
              split at h
              · simp at h
              · rename_i st3 hst3
                have h4 : connInv st3 := deliver_connInv r.late _ st3 h3
                  (fun e he => hreal e (by simp [scriptEvents, Round.events, he])) hst3
                split at h
                · simp only [Option.some.injEq, Prod.mk.injEq] at h
                  obtain ⟨-, hw⟩ := h
                  subst hw
                  exact h4
                · exact ih _ h4
                    (fun e he => hreal e (by simp [scriptEvents, he])) h
    · simp only [Option.some.injEq, Prod.mk.injEq] at h
      obtain ⟨-, hw⟩ := h
      subst hw
      exact hinv

theorem ble_stack_init_conn (rc : Cmd → Nat) (w : Sys) :
    (ble_stack_init rc w).2.st.m_conn_handle = w.st.m_conn_handle ∧
    (ble_stack_init rc w).2.st.is_connect = w.st.is_connect := by
  simp only [ble_stack_init, Sys.assign, Sys.issue]
  split_ifs <;> simp

theorem gap_params_init_conn (rc : Cmd → Nat) (w : Sys) :
    (gap_params_init rc w).2.st.m_conn_handle = w.st.m_conn_handle ∧
    (gap_params_init rc w).2.st.is_connect = w.st.is_connect := by
  simp only [gap_params_init, Sys.assign, Sys.issue]
  split_ifs <;> simp

theorem gatt_init_conn (rc : Cmd → Nat) (w : Sys) :
    (gatt_init rc w).2.st.m_conn_handle = w.st.m_conn_handle ∧
    (gatt_init rc w).2.st.is_connect = w.st.is_connect := by
  simp only [gatt_init, Sys.assign, Sys.issue]
  split_ifs <;> simp

theorem services_init_conn (rc : Cmd → Nat) (w : Sys) :
    (services_init rc w).2.st.m_conn_handle = w.st.m_conn_handle ∧
    (services_init rc w).2.st.is_connect = w.st.is_connect := by
  simp only [services_init, Sys.assign, Sys.issue]
  split_ifs <;> simp

theorem advertising_init_conn (rc : Cmd → Nat) (w : Sys) :
    (advertising_init rc w).2.st.m_conn_handle = w.st.m_conn_handle ∧
    (advertising_init rc w).2.st.is_connect = w.st.is_connect := by
  simp only [advertising_init, Sys.assign, Sys.issue]
  split_ifs <;> simp

theorem conn_params_init_conn (rc : Cmd → Nat) (w : Sys) :
    (conn_params_init rc w).2.st.m_conn_handle = w.st.m_conn_handle ∧
    (conn_params_init rc w).2.st.is_connect = w.st.is_connect := by
  simp only [conn_params_init, Sys.assign, Sys.issue]
  split_ifs <;> simp

theorem advertising_start_conn (rc : Cmd → Nat) (w : Sys) :
    (advertising_start rc w).2.st.m_conn_handle = w.st.m_conn_handle ∧
    (advertising_start rc w).2.st.is_connect = w.st.is_connect := by
  simp only [advertising_start, Sys.assign, Sys.issue]
  split_ifs <;> simp

theorem bleUartInit_conn (B : Nat) (rc : Cmd → Nat) (w : Sys) :
    (bleUartInit B rc w).2.st.m_conn_handle = w.st.m_conn_handle ∧
    (bleUartInit B rc w).2.st.is_connect = w.st.is_connect := by
  simp only [bleUartInit, (advertising_start_conn rc _).1, (advertising_start_conn rc _).2,
    (conn_params_init_conn rc _).1, (conn_params_init_conn rc _).2,
    (advertising_init_conn rc _).1, (advertising_init_conn rc _).2,
    (services_init_conn rc _).1, (services_init_conn rc _).2,
    (gatt_init_conn rc _).1, (gatt_init_conn rc _).2,
    (gap_params_init_conn rc _).1, (gap_params_init_conn rc _).2,
    (ble_stack_init_conn rc _).1, (ble_stack_init_conn rc _).2, createBuffers, and_self]

theorem exec_connInv (c : Call) (s s' : State) (hinv : connInv s)
    (hreal : c.realHandles = true) (h : c.exec s = some s') : connInv s' := by
  cases c with
  | event e => exact dispatch_connInv s s' e hinv hreal h
  | bleUartInit B rc =>
    simp only [Call.exec, Option.some.injEq] at h
    subst h
    unfold connInv
    rw [(bleUartInit_conn B rc ⟨s, []⟩).1, (bleUartInit_conn B rc ⟨s, []⟩).2]
    exact hinv
  | bleUartIsInit =>
    simp only [Call.exec, Option.some.injEq] at h
    subst h
    exact hinv
  | bleUartIsConnect =>
    simp only [Call.exec, Option.some.injEq] at h
    subst h
    exact hinv
  | bleUartAvailable =>
    simp only [Call.exec, Option.some.injEq] at h
    subst h
    exact hinv
  | bleUartFlush =>
    simp only [Call.exec, Option.some.injEq] at h
    subst h
    exact hinv
  | bleUartRead =>
    simp only [Call.exec, Option.some.injEq] at h
    subst h
    exact hinv
  | bleUartWrite p_data length script =>
    simp only [Call.exec, Option.map_eq_some'] at h
    obtain ⟨⟨n, w⟩, hw, rfl⟩ := h
    simp only [Call.realHandles, List.all_eq_true] at hreal
    unfold bleUartWrite at hw
    split at hw
    · simp only [Option.some.injEq, Prod.mk.injEq] at hw
      obtain ⟨-, hw⟩ := hw
      subst hw
      exact hinv
    · exact writeLoop_connInv _ _ _ _ _ _ hinv hreal hw

/-- C7: from the initial state, after any finite sequence of stack events and
public calls in which every link-connected event carries a real handle,
`m_conn_handle` is `BLE_CONN_HANDLE_INVALID` exactly when `is_connect` is
false. -/
theorem C7_connection_state_invariant (calls : List Call) (s : State)
    (hreal : ∀ c ∈ calls, c.realHandles = true)
    (hrun : run calls initState = some s) :
    (s.m_conn_handle = BLE_CONN_HANDLE_INVALID ↔ s.is_connect = false) := by
  have key : ∀ (cs : List Call) (a b : State), connInv a →
      (∀ c ∈ cs, c.realHandles = true) → run cs a = some b → connInv b := by
    intro cs
    induction cs with
    | nil =>
      intro a b ha _ h
      simp only [run, Option.some.injEq] at h
      subst h
      exact ha
    | cons c cs ih =>
      intro a b ha hr h
      simp only [run] at h
      cases hc : c.exec a with
      | none => simp [hc] at h
      | some a1 =>
        simp only [hc, Option.some_bind] at h
        exact ih a1 b (exec_connInv c a a1 ha (hr c (by simp)) hc)
          (fun x hx => hr x (by simp [hx])) h
  exact key calls initState s (by simp [connInv, initState]) hreal hrun

/-! ## Closed instances -/

/-- C10 on a run that returns: 200 bytes on `linkUp64`, a first round answered
`NRF_ERROR_RESOURCES` with readiness signalled, a second round accepted. -/
theorem C10_write_always_returns_zero_witness :
    ∃ n w, bleUartWrite linkUp64 (List.replicate 200 0) 200 [roundBusyReady, roundAccepted]
        = some (n, w) ∧ w.sends.length = 2 ∧
      n = 0 ∧ ∀ q ∈ w.sends,
        q.p_tx_buf = 0 ∧ q.tx_len = min (200 % 65536) q.max_data_len := by
  have hrun : (bleUartWrite linkUp64 (List.replicate 200 0) 200
      [roundBusyReady, roundAccepted]).isSome = true := by decide
  obtain ⟨⟨n, w⟩, hw⟩ := Option.isSome_iff_exists.mp hrun
  have hlen : ((bleUartWrite linkUp64 (List.replicate 200 0) 200
      [roundBusyReady, roundAccepted]).map fun r => r.2.sends.length) = some 2 := by decide
  rw [hw] at hlen
  exact ⟨n, w, hw, by simpa using hlen,
    C10_write_always_returns_zero linkUp64 (List.replicate 200 0) 200
      [roundBusyReady, roundAccepted] n w hw⟩

/-- C9, amended, on `linkUp64` with the round `roundSilent`, whose clock wraps
around 2^32: the fourth poll is the first that is 100 ms past `pre_time`. -/
theorem C9_write_timeout_witness :
    ∃ w, bleUartWrite linkUp64 [1, 2, 3] 3 [roundSilent] = some (0, w) ∧
      w.sends.length = 1 ∧ 1 ≤ w.polls ∧ w.polls ≤ 3 + 1 ∧
      w.st.is_ready_to_send = false :=
  C9_write_timeout linkUp64 [1, 2, 3] 3 roundSilent [] 3 ⟨[], 94⟩ rfl (by decide)
    (Or.inr (Or.inl rfl)) (by decide) (by decide) (by decide)

/-- C9 as stated fails: on `linkUp64`, with the round `roundPairingReplyFails`
every stated condition holds (connected link, 3 bytes, retriable send result, no
event sets the readiness flag, the clock does not go back and the second poll is
100 ms past `pre_time`), yet the call does not return, whatever the environment
does afterwards: the handler of the security-parameters request ends in the
fatal error handler because its reply command returned 3.  With reply code 0
the same run returns after one send request and two polls. -/
theorem C9_write_halts_in_fatal_handler :
    linkUp64.is_connect = true ∧ 1 ≤ 3 ∧
    roundPairingReplyFails.rc = NRF_ERROR_RESOURCES ∧
    (∀ e ∈ roundPairingReplyFails.events, e.signalsReady = false) ∧
    u32sub 50 roundPairingReplyFails.t0 ≤ u32sub 100 roundPairingReplyFails.t0 ∧
    roundPairingReplyFails.polls[1]? = some ⟨[], 100⟩ ∧
    100 ≤ u32sub 100 roundPairingReplyFails.t0 ∧
    (∀ rest, bleUartWrite linkUp64 [1, 2, 3] 3 (roundPairingReplyFails :: rest) = none) ∧
    (bleUartWrite linkUp64 [1, 2, 3] 3
        [{ roundPairingReplyFails with
            polls := [⟨[.ble ⟨.BLE_GAP_EVT_SEC_PARAMS_REQUEST, 1, NRF_SUCCESS⟩], 50⟩,
                      ⟨[], 100⟩] }]).map
      (fun r => (r.1, r.2.sends.length, r.2.polls)) = some (0, 1, 2) := by
  refine ⟨rfl, by decide, rfl, by decide, by decide, by decide, by decide, fun rest => ?_,
    by decide⟩
  simp [bleUartWrite, linkUp64, writeLoop, waitLoop, roundPairingReplyFails, deliver,
    dispatch, handler_ble_evt, APP_ERROR_CHECK, NRF_SUCCESS, NRF_ERROR_RESOURCES,
    NRF_ERROR_INVALID_STATE, NRF_ERROR_NOT_FOUND]

/-- C7 on the session `sessionCalls`, which ends connected with handle 5. -/
theorem C7_connection_state_invariant_witness :
    run sessionCalls initState = some sessionEnd ∧
    (sessionEnd.m_conn_handle = BLE_CONN_HANDLE_INVALID ↔ sessionEnd.is_connect = false) :=
  ⟨by decide,
   C7_connection_state_invariant sessionCalls sessionEnd (by decide) (by decide)⟩

end BleUart
